import Mathlib

/-!
Shallow embedding of the workshop-controller dashboard logic.

The embedding follows the source components:
* the smart-light optimistic-update reconciler (`updateLightState`,
  `handleLightPowerToggle`, `handleLightColorChange` with its 250 ms
  debounce timer),
* the LAN scanner sweep with cooperative cancellation,
* the CNC WebSocket handlers (`cncOnMessage`, `cncOnClose`, `sendCncCommand`),
* the streaming-audio session teardown (`stopConversation` and the live
  session callbacks),
* the mock backend endpoint `POST /api/lights/power`.

Asynchronous effects (fetches, timers, socket events) are modelled as
explicit outcome parameters and event traces over the component state.
-/

/-- The light value object kept in component state:
`{ power: 'on' | 'off', r, g, b }`.  Power is kept as the raw string the
source uses on the wire. -/
structure LightState where
  power : String
  r : Nat
  g : Nat
  b : Nat
deriving DecidableEq, Repr

/-- `LightConnectionStatus = 'Disconnected' | 'Connecting' | 'Connected' | 'Error'`. -/
inductive LightConnectionStatus
  | Disconnected
  | Connecting
  | Connected
  | Error
deriving DecidableEq, Repr

/-- A `Partial<LightState>` argument to `updateLightState`: each field is
present (`some`) or absent (`none`). -/
structure LightPatch where
  power : Option String := none
  r : Option Nat := none
  g : Option Nat := none
  b : Option Nat := none
deriving DecidableEq, Repr

/-- The nested `color` object of the `/state` POST payload. -/
structure RgbColor where
  r : Nat
  g : Nat
  b : Nat
deriving DecidableEq, Repr

/-- The JSON payload built by `updateLightState`: an optional `power` key and
an optional `color` key. -/
structure StatePayload where
  power : Option String := none
  color : Option RgbColor := none
deriving DecidableEq, Repr

/-- The light-related slice of the `WorkshopControl` component state. -/
structure LightComponent where
  lights : LightState
  isUpdatingLight : Bool
  lightConnectionStatus : LightConnectionStatus
deriving DecidableEq, Repr

/-- Initial values from the component `useState` calls:
lights `{power:'off', r:255, g:220, b:180}`, not updating, disconnected. -/
def lightInit : LightComponent :=
  { lights := { power := "off", r := 255, g := 220, b := 180 }
    isUpdatingLight := false
    lightConnectionStatus := .Disconnected }

/-- Outcome of the `/state` fetch: response arrived with `response.ok`,
response arrived non-ok (throws `Command failed`), or the fetch itself
rejected (network error or the 3000 ms `AbortSignal.timeout`). -/
inductive LightFetchOutcome
  | ok
  | httpErr
  | netErr
deriving DecidableEq, Repr

/-- `{ ...originalState, ...newState }`. -/
def applyPatch (ls : LightState) (p : LightPatch) : LightState :=
  { power := p.power.getD ls.power
    r := p.r.getD ls.r
    g := p.g.getD ls.g
    b := p.b.getD ls.b }

/-- Payload construction in `updateLightState`: `power` is copied when the
patch defines it; a `color` object with the updated r,g,b is included when
any of r, g, b is defined in the patch. -/
def mkPayload (p : LightPatch) (updated : LightState) : StatePayload :=
  { power := p.power
    color :=
      if p.r.isSome || p.g.isSome || p.b.isSome then
        some { r := updated.r, g := updated.g, b := updated.b }
      else
        none }

/-- `Object.keys(payload).length === 0`. -/
def payloadEmpty (pl : StatePayload) : Bool :=
  pl.power.isNone && pl.color.isNone

/-- The alert message surfaced when the `/state` command fails. -/
def lightAlertMsg : String :=
  "Error: Could not control the light. Check IP and network connection."

/-- Result of one `updateLightState` invocation: the new component state,
the POST requests issued (at most one), and the alerts surfaced. -/
structure UpdateResult where
  comp : LightComponent
  requests : List StatePayload
  alerts : List String
deriving DecidableEq, Repr

/-- The optimistic-update reconciler `updateLightState`:
drop when not connected or a command is already in flight; otherwise
snapshot, apply the patch optimistically, build the payload, return early if
the payload is empty, POST it, and on a non-ok response or a rejected fetch
alert, restore the snapshot and mark the connection `Error`.  The `finally`
clause clears `isUpdatingLight` on every path that set it. -/
def updateLightState (c : LightComponent) (p : LightPatch)
    (o : LightFetchOutcome) : UpdateResult :=
  if c.lightConnectionStatus ≠ .Connected ∨ c.isUpdatingLight = true then
    { comp := c, requests := [], alerts := [] }
  else
    let originalState := c.lights
    let updatedState := applyPatch originalState p
    let payload := mkPayload p updatedState
    if payloadEmpty payload then
      { comp := { c with lights := updatedState, isUpdatingLight := false }
        requests := []
        alerts := [] }
    else
      match o with
      | .ok =>
        { comp := { c with lights := updatedState, isUpdatingLight := false }
          requests := [payload]
          alerts := [] }
      | .httpErr =>
        { comp := { lights := originalState, isUpdatingLight := false,
                    lightConnectionStatus := .Error }
          requests := [payload]
          alerts := [lightAlertMsg] }
      | .netErr =>
        { comp := { lights := originalState, isUpdatingLight := false,
                    lightConnectionStatus := .Error }
          requests := [payload]
          alerts := [lightAlertMsg] }

/-- `handleLightPowerToggle`: flip the current power value through the
reconciler. -/
def handleLightPowerToggle (c : LightComponent) (o : LightFetchOutcome) :
    UpdateResult :=
  updateLightState c
    { power := some (if c.lights.power = "on" then "off" else "on") } o

/-- A connected, idle light component used to instantiate the theorems. -/
def lightConnected : LightComponent :=
  { lights := { power := "off", r := 255, g := 220, b := 180 }
    isUpdatingLight := false
    lightConnectionStatus := .Connected }

/-- Claim C1: invoking `updateLightState` in the Connected, non-updating
state, when the request is actually issued and fails (non-ok response) or
times out (rejected fetch), restores the light state exactly to the
pre-command snapshot, sets the connection status to `Error`, and surfaces
the alert message. -/
theorem workshop_C1_failed_command_rolls_back
    (c : LightComponent) (p : LightPatch) (o : LightFetchOutcome)
    (hconn : c.lightConnectionStatus = .Connected)
    (hupd : c.isUpdatingLight = false)
    (hfail : o = .httpErr ∨ o = .netErr)
    (hreq : payloadEmpty (mkPayload p (applyPatch c.lights p)) = false) :
    (updateLightState c p o).comp.lights = c.lights ∧
    (updateLightState c p o).comp.lightConnectionStatus = .Error ∧
    (updateLightState c p o).alerts = [lightAlertMsg] ∧
    (updateLightState c p o).requests ≠ [] := by
  rcases hfail with h | h <;> subst h <;>
    simp [updateLightState, hconn, hupd, hreq]

/-- Witness for C1: toggling power on a connected idle light with the
backend rejecting the command rolls the state back and shows `Error`. -/
theorem workshop_C1_witness :
    (updateLightState lightConnected { power := some "on" } .netErr).comp.lights
        = lightConnected.lights ∧
    (updateLightState lightConnected { power := some "on" } .netErr).comp.lightConnectionStatus
        = .Error ∧
    (updateLightState lightConnected { power := some "on" } .netErr).alerts
        = [lightAlertMsg] ∧
    (updateLightState lightConnected { power := some "on" } .netErr).requests ≠ [] :=
  workshop_C1_failed_command_rolls_back lightConnected
    { power := some "on" } .netErr rfl rfl (Or.inr rfl) (by decide)

/-- Claim C2: an `updateLightState` invocation while `isUpdatingLight` is
already true is a complete no-op: no request is issued, nothing is queued,
and the component state (light values and connection status) is returned
unchanged. -/
theorem workshop_C2_concurrent_command_dropped
    (c : LightComponent) (p : LightPatch) (o : LightFetchOutcome)
    (hbusy : c.isUpdatingLight = true) :
    updateLightState c p o = { comp := c, requests := [], alerts := [] } := by
  simp [updateLightState, hbusy]

/-- Witness for C2: a second power command issued while one is in flight
leaves everything untouched. -/
theorem workshop_C2_witness :
    updateLightState
        { lights := { power := "off", r := 255, g := 220, b := 180 }
          isUpdatingLight := true
          lightConnectionStatus := .Connected }
        { power := some "on" } .ok
      = { comp := { lights := { power := "off", r := 255, g := 220, b := 180 }
                    isUpdatingLight := true
                    lightConnectionStatus := .Connected }
          requests := []
          alerts := [] } :=
  workshop_C2_concurrent_command_dropped _ _ _ rfl

/-- The three color sliders. -/
inductive ColorChannel
  | r
  | g
  | b
deriving DecidableEq, Repr

/-- `setLights(prev => ({ ...prev, [color]: value }))`. -/
def setChannel (ls : LightState) : ColorChannel → Nat → LightState
  | .r, v => { ls with r := v }
  | .g, v => { ls with g := v }
  | .b, v => { ls with b := v }

/-- One slider input event at absolute time `t` (milliseconds). -/
structure TimedChange where
  t : Nat
  ch : ColorChannel
  v : Nat
deriving DecidableEq, Repr

/-- State threading the component, the pending debounce timer (absolute fire
time held in `lightColorTimeoutRef`), and the accumulated outputs. -/
structure SliderState where
  comp : LightComponent
  timer : Option Nat
  requests : List StatePayload
  alerts : List String
deriving DecidableEq, Repr

/-- The debounce window of `handleLightColorChange` (250 ms). -/
def debounceMs : Nat := 250

/-- The debounce timeout callback: read the latest lights and send their
r, g, b through `updateLightState`. -/
def fireColorTimeout (o : LightFetchOutcome) (s : SliderState) : SliderState :=
  let u := updateLightState s.comp
    { r := some s.comp.lights.r
      g := some s.comp.lights.g
      b := some s.comp.lights.b } o
  { comp := u.comp
    timer := none
    requests := s.requests ++ u.requests
    alerts := s.alerts ++ u.alerts }

/-- `handleLightColorChange` at time `c.t`: if the previously armed timer has
already fired it did so before this event; otherwise `clearTimeout` cancels
it.  Then the slider value is written to the lights immediately and a new
250 ms timer is armed. -/
def handleLightColorChange (o : LightFetchOutcome) (s : SliderState)
    (c : TimedChange) : SliderState :=
  let s1 :=
    match s.timer with
    | some tf => if tf ≤ c.t then fireColorTimeout o s else { s with timer := none }
    | none => s
  { s1 with
      comp := { s1.comp with lights := setChannel s1.comp.lights c.ch c.v }
      timer := some (c.t + debounceMs) }

/-- Process a chronological list of slider events. -/
def sliderRun (o : LightFetchOutcome) (s : SliderState)
    (cs : List TimedChange) : SliderState :=
  cs.foldl (handleLightColorChange o) s

/-- Let time run out after the last event: an armed timer fires. -/
def sliderFinish (o : LightFetchOutcome) (s : SliderState) : SliderState :=
  match s.timer with
  | some _ => fireColorTimeout o s
  | none => s

/-- The lights after a list of slider writes. -/
def foldColor (ls : LightState) (cs : List TimedChange) : LightState :=
  cs.foldl (fun l c => setChannel l c.ch c.v) ls

/-- Every event arrives before the debounce timer armed by its predecessor
would fire. -/
def gapsOk : List TimedChange → Bool
  | [] => true
  | [_] => true
  | c1 :: c2 :: rest => decide (c2.t < c1.t + debounceMs) && gapsOk (c2 :: rest)

/-- The head event (if any) arrives strictly before the armed timer fires. -/
def armedOk (timer : Option Nat) : List TimedChange → Prop
  | [] => True
  | c :: _ => ∀ tf, timer = some tf → c.t < tf

/-- The timer value left armed after a list of slider events. -/
def nextTimer (t0 : Option Nat) (cs : List TimedChange) : Option Nat :=
  cs.foldl (fun _ c => some (c.t + debounceMs)) t0

theorem nextTimer_some (cs : List TimedChange) :
    ∀ v : Nat, ∃ w, nextTimer (some v) cs = some w := by
  induction cs with
  | nil => intro v; exact ⟨v, rfl⟩
  | cons c rest ih => intro v; exact ih (c.t + debounceMs)

/-- While every event falls inside the running debounce window, no timer
fires: the lights accumulate the slider writes, the requests and alerts are
untouched, and the timer tracks the last event. -/
theorem sliderRun_no_fire (o : LightFetchOutcome) :
    ∀ (cs : List TimedChange) (s : SliderState),
      armedOk s.timer cs → gapsOk cs = true →
      sliderRun o s cs =
        { comp := { s.comp with lights := foldColor s.comp.lights cs }
          timer := nextTimer s.timer cs
          requests := s.requests
          alerts := s.alerts } := by
  intro cs
  induction cs with
  | nil =>
    intro s _ _
    simp [sliderRun, foldColor, nextTimer]
  | cons c rest ih =>
    intro s harm hgaps
    have hstep : handleLightColorChange o s c =
        { comp := { s.comp with lights := setChannel s.comp.lights c.ch c.v }
          timer := some (c.t + debounceMs)
          requests := s.requests
          alerts := s.alerts } := by
      cases htimer : s.timer with
      | none => simp [handleLightColorChange, htimer]
      | some tf =>
        have hlt : c.t < tf := harm tf htimer
        simp [handleLightColorChange, htimer, Nat.not_le_of_lt hlt]
    have harm' : armedOk (some (c.t + debounceMs)) rest := by
      cases rest with
      | nil => trivial
      | cons c2 r2 =>
        intro tf htf
        cases htf
        have := hgaps
        simp only [gapsOk, Bool.and_eq_true, decide_eq_true_eq] at this
        exact this.1
    have hgaps' : gapsOk rest = true := by
      cases rest with
      | nil => rfl
      | cons c2 r2 =>
        have := hgaps
        simp only [gapsOk, Bool.and_eq_true] at this
        exact this.2
    have := ih { comp := { s.comp with lights := setChannel s.comp.lights c.ch c.v }
                 timer := some (c.t + debounceMs)
                 requests := s.requests
                 alerts := s.alerts } harm' hgaps'
    calc sliderRun o s (c :: rest)
        = sliderRun o (handleLightColorChange o s c) rest := rfl
      _ = _ := by rw [hstep, this]; simp [foldColor, nextTimer]

/-- Claim C3: for any nonempty chronological sequence of slider changes that
all fall inside the 250 ms debounce window, starting from a connected idle
component with no armed timer, exactly one network write is issued once the
input settles, and it carries the final color. -/
theorem workshop_C3_debounce_single_write
    (o : LightFetchOutcome) (s0 : SliderState) (cs : List TimedChange)
    (hconn : s0.comp.lightConnectionStatus = .Connected)
    (hupd : s0.comp.isUpdatingLight = false)
    (htimer : s0.timer = none)
    (hreq : s0.requests = [])
    (hgaps : gapsOk cs = true)
    (hne : cs ≠ []) :
    (sliderFinish o (sliderRun o s0 cs)).requests =
      [{ power := none
         color := some { r := (foldColor s0.comp.lights cs).r
                         g := (foldColor s0.comp.lights cs).g
                         b := (foldColor s0.comp.lights cs).b } }] := by
  have harm : armedOk s0.timer cs := by
    cases cs with
    | nil => trivial
    | cons c r =>
      intro tf htf
      rw [htimer] at htf
      cases htf
  rw [sliderRun_no_fire o cs s0 harm hgaps]
  obtain ⟨c, rest, rfl⟩ : ∃ c rest, cs = c :: rest := by
    cases cs with
    | nil => exact absurd rfl hne
    | cons c rest => exact ⟨c, rest, rfl⟩
  have : nextTimer s0.timer (c :: rest) = nextTimer (some (c.t + debounceMs)) rest := rfl
  obtain ⟨w, hw⟩ := nextTimer_some rest (c.t + debounceMs)
  rw [this, hw]
  cases o <;>
    simp [sliderFinish, fireColorTimeout, updateLightState, mkPayload,
      payloadEmpty, applyPatch, hconn, hupd, hreq]

/-- The scenario of claim C3: color set to (10,20,30) at t=0 and to
(40,50,60) at t=100, each through the three channel sliders. -/
def scenarioChanges : List TimedChange :=
  [{ t := 0, ch := .r, v := 10 }, { t := 0, ch := .g, v := 20 },
   { t := 0, ch := .b, v := 30 }, { t := 100, ch := .r, v := 40 },
   { t := 100, ch := .g, v := 50 }, { t := 100, ch := .b, v := 60 }]

/-- Slider state over a connected idle component, nothing armed. -/
def sliderInit : SliderState :=
  { comp := lightConnected, timer := none, requests := [], alerts := [] }

/-- Witness for C3: the two color settings 100 ms apart produce exactly one
POST and its body carries color (40,50,60). -/
theorem workshop_C3_witness :
    gapsOk scenarioChanges = true ∧
    (sliderFinish .ok (sliderRun .ok sliderInit scenarioChanges)).requests =
      [{ power := none, color := some { r := 40, g := 50, b := 60 } }] := by
  refine ⟨by decide, ?_⟩
  simpa using workshop_C3_debounce_single_write .ok sliderInit scenarioChanges
    rfl rfl rfl rfl (by decide) (by decide)

/-- The per-request timeout of a scan probe (1500 ms `setTimeout` abort). -/
def probeTimeoutMs : Nat := 1500

/-- One probe issued by the sweep: the host byte of the address and the
timeout bound attached to its abort controller. -/
structure ScanProbe where
  host : Nat
  timeoutMs : Nat
deriving DecidableEq, Repr

/-- The probed address string for host byte `i`. -/
def probeIp (base : String) (i : Nat) : String :=
  base ++ "." ++ toString i

/-- `handleStartScan` issues one fetch per host byte 1..254, each with its
own 1500 ms timeout controller, synchronously before any settles. -/
def scanProbes : List ScanProbe :=
  (List.range' 1 254).map (fun i => { host := i, timeoutMs := probeTimeoutMs })

/-- How a probe settles: `response.ok`, a non-ok response, or a rejected
fetch (network error, per-request timeout, or abort). -/
inductive ProbeOutcome
  | ok
  | httpFail
  | netFail
deriving DecidableEq, Repr

/-- Scanner state: hosts whose fetch was issued, hosts still outstanding,
hosts collected into `scanResults`, the progress counter, and whether the
global abort signal fired. -/
structure ScanState where
  started : List Nat
  pending : List Nat
  results : List Nat
  progress : Nat
  aborted : Bool
deriving DecidableEq, Repr

/-- Events of the sweep: a probe settles, or the global abort signal fires
(`handleStopScan`). -/
inductive ScanEvent
  | settle (i : Nat) (o : ProbeOutcome)
  | abort
deriving DecidableEq, Repr

/-- The state right after `handleStartScan` has issued all 254 fetches. -/
def scanStart : ScanState :=
  { started := List.range' 1 254
    pending := List.range' 1 254
    results := []
    progress := 0
    aborted := false }

/-- One event step.  A settling probe that is still outstanding is recorded
(into `scanResults` only when `response.ok`) and bumps progress; a probe
that was already aborted settles as a caught rejection with no effect.
The global abort aborts every outstanding per-request controller, whose
`finally` clauses bump progress; the signal fires its listener once. -/
def scanStep (s : ScanState) : ScanEvent → ScanState
  | .settle i o =>
    if i ∈ s.pending then
      { s with
          pending := s.pending.erase i
          results := if o = .ok then s.results ++ [i] else s.results
          progress := s.progress + 1 }
    else s
  | .abort =>
    if s.aborted then s
    else
      { s with
          aborted := true
          progress := s.progress + s.pending.length
          pending := [] }

/-- Fold a trace of events. -/
def scanRun (s : ScanState) (evs : List ScanEvent) : ScanState :=
  evs.foldl scanStep s

theorem scanStep_done (s : ScanState) (e : ScanEvent) (h : s.pending = []) :
    (scanStep s e).results = s.results ∧
    (scanStep s e).started = s.started ∧
    (scanStep s e).pending = [] := by
  cases e with
  | settle i o => simp [scanStep, h]
  | abort =>
    by_cases ha : s.aborted <;> simp [scanStep, h, ha]

theorem scanRun_done :
    ∀ (evs : List ScanEvent) (s : ScanState), s.pending = [] →
      (scanRun s evs).results = s.results ∧
      (scanRun s evs).started = s.started ∧
      (scanRun s evs).pending = [] := by
  intro evs
  induction evs with
  | nil => intro s h; exact ⟨rfl, rfl, h⟩
  | cons e rest ih =>
    intro s h
    obtain ⟨hr, hs, hp⟩ := scanStep_done s e h
    obtain ⟨hr2, hs2, hp2⟩ := ih (scanStep s e) hp
    exact ⟨hr2.trans hr, hs2.trans hs, hp2⟩

/-- Reachability invariant of the sweep: once the global abort has fired
nothing is outstanding, and the started set stays the full range. -/
def scanInv (s : ScanState) : Prop :=
  (s.aborted = true → s.pending = []) ∧ s.started = List.range' 1 254

theorem scanInv_start : scanInv scanStart :=
  ⟨fun h => by simp [scanStart] at h, rfl⟩

theorem scanInv_step (s : ScanState) (e : ScanEvent) (h : scanInv s) :
    scanInv (scanStep s e) := by
  obtain ⟨hab, hst⟩ := h
  cases e with
  | settle i o =>
    by_cases hm : i ∈ s.pending
    · refine ⟨fun habt => ?_, by simp [scanStep, hm, hst]⟩
      simp only [scanStep, hm, if_pos] at habt ⊢
      rw [hab habt]
      rfl
    · simpa [scanStep, hm] using ⟨hab, hst⟩
  | abort =>
    by_cases ha : s.aborted = true
    · have heq : scanStep s ScanEvent.abort = s := by simp [scanStep, ha]
      rw [heq]
      exact ⟨hab, hst⟩
    · refine ⟨fun _ => ?_, ?_⟩ <;> simp [scanStep, ha, hst]

theorem scanInv_run :
    ∀ (evs : List ScanEvent) (s : ScanState), scanInv s → scanInv (scanRun s evs) := by
  intro evs
  induction evs with
  | nil => intro s h; exact h
  | cons e rest ih => intro s h; exact ih _ (scanInv_step s e h)

/-- Claim C4: once the scan abort fires mid-sweep, every still-outstanding
probe is aborted, no new probe is started (the started set never grows past
the fetches issued up front), and whatever trace of events follows, the
collected result list stays exactly what it was at the moment of
cancellation. -/
theorem workshop_C4_abort_freezes_scan (evs1 evs2 : List ScanEvent) :
    (scanRun (scanStep (scanRun scanStart evs1) .abort) evs2).results
        = (scanStep (scanRun scanStart evs1) .abort).results ∧
    (scanStep (scanRun scanStart evs1) .abort).pending = [] ∧
    (scanRun (scanStep (scanRun scanStart evs1) .abort) evs2).pending = [] ∧
    (scanRun (scanStep (scanRun scanStart evs1) .abort) evs2).started
        = List.range' 1 254 := by
  have hinv : scanInv (scanRun scanStart evs1) := scanInv_run evs1 scanStart scanInv_start
  have hinv2 : scanInv (scanStep (scanRun scanStart evs1) .abort) :=
    scanInv_step _ _ hinv
  have habt : (scanStep (scanRun scanStart evs1) .abort).aborted = true := by
    by_cases ha : (scanRun scanStart evs1).aborted <;>
      simp [scanStep, ha, hinv.1]
  have hpend : (scanStep (scanRun scanStart evs1) .abort).pending = [] :=
    hinv2.1 habt
  obtain ⟨hr, hs, hp⟩ := scanRun_done evs2 _ hpend
  exact ⟨hr, hpend, hp, hs.trans hinv2.2⟩

theorem scan_settle_all (f : Nat → ProbeOutcome) :
    ∀ (l : List Nat) (s : ScanState), l.Nodup → (∀ i ∈ l, i ∈ s.pending) →
      (scanRun s (l.map (fun i => ScanEvent.settle i (f i)))).results
          = s.results ++ l.filter (fun i => f i = ProbeOutcome.ok) ∧
      (scanRun s (l.map (fun i => ScanEvent.settle i (f i)))).pending.length
          + l.length = s.pending.length ∧
      (scanRun s (l.map (fun i => ScanEvent.settle i (f i)))).progress
          = s.progress + l.length ∧
      (scanRun s (l.map (fun i => ScanEvent.settle i (f i)))).started
          = s.started := by
  intro l
  induction l with
  | nil => intro s _ _; simp [scanRun]
  | cons a rest ih =>
    intro s hnd hmem
    have hamem : a ∈ s.pending := hmem a (List.mem_cons_self a rest)
    have hstep : scanRun s ((a :: rest).map (fun i => ScanEvent.settle i (f i)))
        = scanRun (scanStep s (ScanEvent.settle a (f a)))
            (rest.map (fun i => ScanEvent.settle i (f i))) := rfl
    have hnd' : rest.Nodup := hnd.of_cons
    have hmem' : ∀ i ∈ rest, i ∈ (scanStep s (ScanEvent.settle a (f a))).pending := by
      intro i hi
      have hne : i ≠ a := by
        intro heq
        subst heq
        exact (List.nodup_cons.mp hnd).1 hi
      simp only [scanStep, hamem, if_pos]
      exact (List.mem_erase_of_ne hne).mpr (hmem i (List.mem_cons_of_mem a hi))
    obtain ⟨hr, hl, hpr, hst⟩ := ih (scanStep s (ScanEvent.settle a (f a))) hnd' hmem'
    have hsp : (scanStep s (ScanEvent.settle a (f a))).pending = s.pending.erase a := by
      simp [scanStep, hamem]
    have hspr : (scanStep s (ScanEvent.settle a (f a))).progress = s.progress + 1 := by
      simp [scanStep, hamem]
    have hsst : (scanStep s (ScanEvent.settle a (f a))).started = s.started := by
      simp [scanStep, hamem]
    have hsr : (scanStep s (ScanEvent.settle a (f a))).results
        = if f a = ProbeOutcome.ok then s.results ++ [a] else s.results := by
      simp [scanStep, hamem]
    refine ⟨?_, ?_, ?_, ?_⟩
    · rw [hstep, hr, hsr]
      by_cases hfa : f a = ProbeOutcome.ok <;> simp [hfa]
    · rw [hstep]
      rw [hsp] at hl
      have hlen : (s.pending.erase a).length = s.pending.length - 1 :=
        List.length_erase_of_mem hamem
      have hpos : 0 < s.pending.length := List.length_pos_of_mem hamem
      simp only [List.length_cons]
      omega
    · rw [hstep, hpr, hspr]
      simp only [List.length_cons]
      omega
    · rw [hstep, hst, hsst]

/-- Claim C5: a sweep that runs to completion (every probe settles, in any
order, with no abort) issued exactly one probe per host byte 1..254, each
bounded by the 1500 ms per-request timeout; no probe is retried (the
started set is fixed up front and nothing remains outstanding), and a host
is in the results exactly when its probe settled with an ok response. -/
theorem workshop_C5_full_sweep (order : List Nat) (f : Nat → ProbeOutcome)
    (hperm : order.Perm (List.range' 1 254)) :
    (∀ i, i ∈ (scanRun scanStart (order.map (fun i => ScanEvent.settle i (f i)))).results
        ↔ (i ∈ List.range' 1 254 ∧ f i = ProbeOutcome.ok)) ∧
    (scanRun scanStart (order.map (fun i => ScanEvent.settle i (f i)))).pending = [] ∧
    (scanRun scanStart (order.map (fun i => ScanEvent.settle i (f i)))).progress = 254 ∧
    (scanRun scanStart (order.map (fun i => ScanEvent.settle i (f i)))).started
        = List.range' 1 254 ∧
    scanProbes.map (fun p => p.host) = List.range' 1 254 ∧
    (scanProbes.map (fun p => p.host)).Nodup ∧
    (∀ p ∈ scanProbes, p.timeoutMs = 1500) := by
  have hnodup : order.Nodup := hperm.symm.nodup (List.nodup_range' 1 254)
  have hmem : ∀ i ∈ order, i ∈ scanStart.pending := by
    intro i hi
    exact hperm.mem_iff.mp hi
  obtain ⟨hr, hl, hpr, hst⟩ := scan_settle_all f order scanStart hnodup hmem
  have hlen : order.length = 254 := by
    have := hperm.length_eq
    simpa using this
  have hps : scanStart.pending.length = 254 := by
    simp [scanStart]
  have hmapHost : scanProbes.map (fun p => p.host) = List.range' 1 254 := by
    simp only [scanProbes, List.map_map]
    exact List.map_id _
  refine ⟨?_, ?_, ?_, ?_, hmapHost, ?_, ?_⟩
  · intro i
    rw [hr]
    simp only [scanStart, List.nil_append, List.mem_filter, decide_eq_true_eq]
    exact and_congr_left (fun _ => hperm.mem_iff)
  · have h0 : (scanRun scanStart (order.map (fun i => ScanEvent.settle i (f i)))).pending.length = 0 := by
      omega
    exact List.eq_nil_of_length_eq_zero h0
  · rw [hpr, hlen]
    simp [scanStart]
  · rw [hst]
    rfl
  · rw [hmapHost]
    exact List.nodup_range' 1 254
  · intro p hp
    simp only [scanProbes, List.mem_map] at hp
    obtain ⟨i, _, rfl⟩ := hp
    rfl

/-- Witness for C5: probes settling in address order, only host 7
responding ok, collect exactly host 7 and finish the sweep. -/
theorem workshop_C5_witness :
    ((List.range' 1 254).Perm (List.range' 1 254)) ∧
    (7 ∈ (scanRun scanStart ((List.range' 1 254).map
        (fun i => ScanEvent.settle i
          (if i = 7 then ProbeOutcome.ok else ProbeOutcome.netFail)))).results
      ↔ (7 ∈ List.range' 1 254 ∧
          (if 7 = 7 then ProbeOutcome.ok else ProbeOutcome.netFail) = ProbeOutcome.ok)) ∧
    (scanRun scanStart ((List.range' 1 254).map
        (fun i => ScanEvent.settle i
          (if i = 7 then ProbeOutcome.ok else ProbeOutcome.netFail)))).progress = 254 :=
  ⟨List.Perm.refl _,
   (workshop_C5_full_sweep (List.range' 1 254)
      (fun i => if i = 7 then ProbeOutcome.ok else ProbeOutcome.netFail)
      (List.Perm.refl _)).1 7,
   (workshop_C5_full_sweep (List.range' 1 254)
      (fun i => if i = 7 then ProbeOutcome.ok else ProbeOutcome.netFail)
      (List.Perm.refl _)).2.2.1⟩

/-- `CncStatus = 'Disconnected' | 'Connecting' | 'Idle' | 'Running' | 'Paused'`. -/
inductive CncStatus
  | Disconnected
  | Connecting
  | Idle
  | Running
  | Paused
deriving DecidableEq, Repr

/-- The CNC slice of the component state: status, loaded G-code file name,
and progress percentage. -/
structure CncComponent where
  cncStatus : CncStatus
  gcodeFile : Option String
  gcodeProgress : Int
deriving DecidableEq, Repr

/-- Initial CNC state from the `useState` calls: Disconnected, no file,
progress 0. -/
def cncInit : CncComponent :=
  { cncStatus := .Disconnected, gcodeFile := none, gcodeProgress := 0 }

/-- An inbound WebSocket frame as seen after `JSON.parse`: either parsing
threw (`malformed`), or it produced an object whose `status`, `gcodeFile`
and `progress` keys may each be present. -/
inductive WsInbound
  | malformed
  | parsed (status : Option CncStatus) (gcode : Option String) (progress : Option Int)
deriving DecidableEq, Repr

/-- The `onmessage` handler: a parse failure is caught and logged (the
returned flag records that the error message was emitted) leaving the state
untouched; otherwise each truthy/typed key updates its field (`gcodeFile`
only when the string is truthy, `progress` whenever it is a number). -/
def cncOnMessage (c : CncComponent) : WsInbound → CncComponent × Bool
  | .malformed => (c, true)
  | .parsed st gc pr =>
    let c1 := match st with
      | some s => { c with cncStatus := s }
      | none => c
    let c2 := match gc with
      | some g => if g ≠ "" then { c1 with gcodeFile := some g } else c1
      | none => c1
    let c3 := match pr with
      | some p => { c2 with gcodeProgress := p }
      | none => c2
    (c3, false)

/-- The `onclose` handler: status Disconnected, file cleared, progress 0. -/
def cncOnClose (_ : CncComponent) : CncComponent :=
  { cncStatus := .Disconnected, gcodeFile := none, gcodeProgress := 0 }

/-- WebSocket ready states. -/
inductive WsReadyState
  | CONNECTING
  | OPEN
  | CLOSING
  | CLOSED
deriving DecidableEq, Repr

/-- The `{ command }` frame sent to the CNC bridge. -/
structure CncCommandMsg where
  command : String
deriving DecidableEq, Repr

/-- `sendCncCommand`: serialize and send `{command}` only when the socket is
OPEN; otherwise nothing is sent. -/
def sendCncCommand (ready : WsReadyState) (cmd : String) : List CncCommandMsg :=
  if ready = .OPEN then [{ command := cmd }] else []

/-- Claim C7: an inbound CNC frame that is not parseable JSON is caught at
the call site: the CNC status, loaded G-code file and progress are all left
unchanged, a short message is emitted instead of the failure propagating,
and the handler is total (no failure is fatal). -/
theorem workshop_C7_malformed_frame_harmless (c : CncComponent) :
    cncOnMessage c WsInbound.malformed = (c, true) := rfl

/-- Claim C9: whenever the CNC WebSocket closes the CNC state is reset to
its initial configuration (Disconnected, no file, progress 0), and a CNC
command is sent only while the socket is OPEN — sending in any other ready
state is a silent no-op. -/
theorem workshop_C9_close_resets_send_gated
    (c : CncComponent) (cmd : String) (ready : WsReadyState) :
    cncOnClose c = cncInit ∧
    (ready ≠ .OPEN → sendCncCommand ready cmd = []) ∧
    sendCncCommand .OPEN cmd = [{ command := cmd }] := by
  refine ⟨rfl, fun h => ?_, rfl⟩
  simp [sendCncCommand, h]

/-- Witness for C9: closing while Running with a file loaded at 42% resets
everything, and a `play` command on a CLOSED socket sends nothing. -/
theorem workshop_C9_witness :
    cncOnClose { cncStatus := .Running, gcodeFile := some "part.nc", gcodeProgress := 42 }
        = cncInit ∧
    sendCncCommand .CLOSED "play" = [] ∧
    sendCncCommand .OPEN "play" = [{ command := "play" }] :=
  ⟨(workshop_C9_close_resets_send_gated
      { cncStatus := .Running, gcodeFile := some "part.nc", gcodeProgress := 42 }
      "play" .CLOSED).1,
   (workshop_C9_close_resets_send_gated
      { cncStatus := .Running, gcodeFile := some "part.nc", gcodeProgress := 42 }
      "play" .CLOSED).2.1 (by decide),
   (workshop_C9_close_resets_send_gated
      { cncStatus := .Running, gcodeFile := some "part.nc", gcodeProgress := 42 }
      "play" .OPEN).2.2⟩

/-- The camera flags `{ power, recording }`. -/
structure CameraState where
  power : Bool
  recording : Bool
deriving DecidableEq, Repr

/-- The device-state slice of `WorkshopControl` touched by the voice
tool-call handler: the dust-collector flag, the camera flags, and the light
component, plus the CNC socket ready state the CNC commands are gated on. -/
structure WorkshopState where
  dustCollectorOn : Bool
  camera : CameraState
  light : LightComponent
  cncReady : WsReadyState
deriving DecidableEq, Repr

/-- The tool calls dispatched by the live-session `onmessage` handler. -/
inductive ToolCall
  | controlDustCollector (power : String)
  | controlLights (p : LightPatch)
  | controlCamera (power : Option String) (recording : Option Bool)
  | startCncCycle
  | pauseCncCycle
  | stopCncCycle
deriving DecidableEq, Repr

/-- The `message.toolCall` dispatch: `controlDustCollector` and
`controlCamera` write their flags directly via `setDustCollectorOn` /
`setCamera`; `controlLights` routes through `applyLightStateFromVoice`,
i.e. the reconciler `updateLightState`; the CNC cycle calls go through
`sendCncCommand`.  Returns the new state, the light POSTs issued, and the
CNC frames sent. -/
def handleToolCall (ws : WorkshopState) (o : LightFetchOutcome) :
    ToolCall → WorkshopState × List StatePayload × List CncCommandMsg
  | .controlDustCollector pw =>
    ({ ws with dustCollectorOn := pw == "on" }, [], [])
  | .controlLights p =>
    let u := updateLightState ws.light p o
    ({ ws with light := u.comp }, u.requests, [])
  | .controlCamera pw rcd =>
    ({ ws with camera :=
        { power := (pw.map (fun v => v == "on")).getD ws.camera.power
          recording := rcd.getD ws.camera.recording } }, [], [])
  | .startCncCycle => (ws, [], sendCncCommand ws.cncReady "play")
  | .pauseCncCycle => (ws, [], sendCncCommand ws.cncReady "pause")
  | .stopCncCycle => (ws, [], sendCncCommand ws.cncReady "stop")

/-- A slider state over the initial (disconnected) light component. -/
def sliderDisconnected : SliderState :=
  { comp := lightInit, timer := none, requests := [], alerts := [] }

/-- A workshop state over the initial light component, camera off, dust
collector off. -/
def workshopInit : WorkshopState :=
  { dustCollectorOn := false
    camera := { power := false, recording := false }
    light := lightInit
    cncReady := .CLOSED }

/-- Counterexample to claim C6 as stated: with the light Disconnected the
reconciler `updateLightState` refuses every write, yet the slider handler
`handleLightColorChange` still mutates the light state directly (r: 255 to
99) without issuing any request, and the voice tool-call handler flips the
dust-collector flag directly with no reconciler involved — so device state
is written by code paths outside the reconciler. -/
theorem workshop_C6_counterexample :
    (handleLightColorChange .ok sliderDisconnected
        { t := 0, ch := .r, v := 99 }).comp.lights.r = 99 ∧
    sliderDisconnected.comp.lights.r = 255 ∧
    (handleLightColorChange .ok sliderDisconnected
        { t := 0, ch := .r, v := 99 }).requests = [] ∧
    updateLightState sliderDisconnected.comp { r := some 99 } .ok
        = { comp := sliderDisconnected.comp, requests := [], alerts := [] } ∧
    (handleToolCall workshopInit .ok (.controlDustCollector "on")).1.dustCollectorOn = true ∧
    workshopInit.dustCollectorOn = false ∧
    (handleToolCall workshopInit .ok (.controlDustCollector "on")).2.1 = [] := by
  refine ⟨rfl, rfl, rfl, ?_, rfl, rfl, rfl⟩
  simp [updateLightState, sliderDisconnected, lightInit]

/-- Claim C6 as amended: only the light's network commands go through the
reconciler `updateLightState`; the device state is additionally written
directly outside it — `handleLightColorChange` applies every slider value
to the light state immediately (whatever the connection status, with no
request), and the dust-collector and camera flags are set directly by the
voice tool-call handler with no reconciler and no network write. -/
theorem workshop_C6_amended
    (ws : WorkshopState) (o : LightFetchOutcome) (pw : String)
    (pwc : Option String) (rcd : Option Bool) (p : LightPatch)
    (s : SliderState) (c : TimedChange) :
    (handleToolCall ws o (.controlDustCollector pw)).1.dustCollectorOn = (pw == "on") ∧
    (handleToolCall ws o (.controlDustCollector pw)).2.1 = [] ∧
    (handleToolCall ws o (.controlCamera pwc rcd)).1.camera
        = { power := (pwc.map (fun v => v == "on")).getD ws.camera.power
            recording := rcd.getD ws.camera.recording } ∧
    (handleToolCall ws o (.controlCamera pwc rcd)).2.1 = [] ∧
    (handleToolCall ws o (.controlLights p)).1.light = (updateLightState ws.light p o).comp ∧
    (handleToolCall ws o (.controlLights p)).2.1 = (updateLightState ws.light p o).requests ∧
    (s.timer = none →
      (handleLightColorChange o s c).comp.lights = setChannel s.comp.lights c.ch c.v ∧
      (handleLightColorChange o s c).requests = s.requests) := by
    refine ⟨rfl, rfl, rfl, rfl, rfl, rfl, fun h => ?_⟩
    simp [handleLightColorChange, h]

/-- Witness for the amended C6: a concrete disconnected state where the
slider write lands directly and the tool call flips the dust collector. -/
theorem workshop_C6_amended_witness :
    sliderDisconnected.timer = none ∧
    (handleToolCall workshopInit .ok (.controlDustCollector "on")).1.dustCollectorOn
        = ("on" == "on") ∧
    (handleLightColorChange .ok sliderDisconnected { t := 0, ch := .g, v := 7 }).comp.lights
        = setChannel sliderDisconnected.comp.lights .g 7 := by
  refine ⟨rfl, ?_, ?_⟩
  · exact (workshop_C6_amended workshopInit .ok "on" none none {} sliderDisconnected
      { t := 0, ch := .g, v := 7 }).1
  · exact ((workshop_C6_amended workshopInit .ok "on" none none {} sliderDisconnected
      { t := 0, ch := .g, v := 7 }).2.2.2.2.2.2 rfl).1

/-- The audio resources the voice session acquires: the microphone media
stream, the audio context, and the script-processor / media-stream-source
processing graph (the four refs nulled by `stopConversation`). -/
structure AudioResources where
  mediaStreamActive : Bool
  audioContextOpen : Bool
  scriptProcessorConnected : Bool
  mediaStreamSourceConnected : Bool
deriving DecidableEq, Repr

/-- No resource held (all refs null / released). -/
def noAudioResources : AudioResources :=
  { mediaStreamActive := false
    audioContextOpen := false
    scriptProcessorConnected := false
    mediaStreamSourceConnected := false }

/-- Voice-session component state: the `isListening` flag, whether the live
session promise is held, the acquired resources, and counters for how many
times the audio context was closed and the stream tracks stopped. -/
structure ConvState where
  isListening : Bool
  sessionOpen : Bool
  res : AudioResources
  contextCloseCount : Nat
  streamStopCount : Nat
deriving DecidableEq, Repr

/-- Initial voice-session state. -/
def convInit : ConvState :=
  { isListening := false, sessionOpen := false, res := noAudioResources,
    contextCloseCount := 0, streamStopCount := 0 }

/-- `stopConversation`: guarded by `isListening`; closes the session,
disconnects the processing graph, closes the audio context, stops the
stream tracks (each only if its ref is held), nulls every ref and clears
`isListening`. -/
def stopConversation (s : ConvState) : ConvState :=
  if s.isListening = false then s
  else
    { isListening := false
      sessionOpen := false
      res := noAudioResources
      contextCloseCount :=
        s.contextCloseCount + (if s.res.audioContextOpen then 1 else 0)
      streamStopCount :=
        s.streamStopCount + (if s.res.mediaStreamActive then 1 else 0) }

/-- `startConversation`: a no-op while already listening; otherwise sets
`isListening` and opens the live-session promise. -/
def startConversation (s : ConvState) : ConvState :=
  if s.isListening then s
  else { s with isListening := true, sessionOpen := true }

/-- The `onopen` callback when microphone initialization succeeds: the
stream, context and processing graph are all acquired. -/
def convOnOpenOk (s : ConvState) : ConvState :=
  { s with res :=
      { mediaStreamActive := true
        audioContextOpen := true
        scriptProcessorConnected := true
        mediaStreamSourceConnected := true } }

/-- The `onopen` callback when `getUserMedia` throws: the audio context was
already created; the catch block alerts and calls `stopConversation`. -/
def convOnOpenMicFail (s : ConvState) : ConvState :=
  stopConversation { s with res := { noAudioResources with audioContextOpen := true } }

/-- The live-session `onerror` callback: `console.error` only. -/
def convOnError (s : ConvState) : ConvState := s

/-- The `turnComplete` branch of `onmessage`: commits the transcript only. -/
def convOnTurnComplete (s : ConvState) : ConvState := s

/-- A session that started and acquired its audio resources. -/
def convStreaming : ConvState := convOnOpenOk (startConversation convInit)

/-- Counterexample to claim C8 as stated: after a server error on a running
session, every audio resource is still acquired and nothing was released —
the `onerror` exit path performs no teardown (and `turnComplete` does not
either), contradicting release on every exit path. -/
theorem workshop_C8_counterexample :
    (convOnError convStreaming).res.mediaStreamActive = true ∧
    (convOnError convStreaming).res.audioContextOpen = true ∧
    (convOnError convStreaming).res.scriptProcessorConnected = true ∧
    (convOnError convStreaming).contextCloseCount = 0 ∧
    (convOnError convStreaming).streamStopCount = 0 ∧
    (convOnTurnComplete convStreaming).res = convStreaming.res := by
  refine ⟨rfl, rfl, rfl, rfl, rfl, rfl⟩

/-- Claim C8 as amended: on the user-stop and microphone-init-failure exit
paths (both run `stopConversation`) all acquired audio resources are
released, each exactly once — the `isListening` guard makes a repeated
teardown a no-op and each close/stop counter advances by exactly one —
while the server-error and turn-completion paths perform no teardown and
leave the state untouched. -/
theorem workshop_C8_amended (s : ConvState) (hl : s.isListening = true) :
    (stopConversation s).res = noAudioResources ∧
    (stopConversation s).isListening = false ∧
    stopConversation (stopConversation s) = stopConversation s ∧
    (s.res.audioContextOpen = true →
      (stopConversation s).contextCloseCount = s.contextCloseCount + 1) ∧
    (s.res.mediaStreamActive = true →
      (stopConversation s).streamStopCount = s.streamStopCount + 1) ∧
    (convOnOpenMicFail s).res = noAudioResources ∧
    (convOnOpenMicFail s).isListening = false ∧
    convOnError s = s ∧
    convOnTurnComplete s = s := by
  refine ⟨?_, ?_, ?_, fun hc => ?_, fun hm => ?_, ?_, ?_, rfl, rfl⟩ <;>
    simp [stopConversation, convOnOpenMicFail, hl]
  · simp [hc]
  · simp [hm]

/-- Witness for the amended C8: stopping the running session releases
everything exactly once, and the mic-failure path also tears down. -/
theorem workshop_C8_amended_witness :
    convStreaming.isListening = true ∧
    (stopConversation convStreaming).res = noAudioResources ∧
    stopConversation (stopConversation convStreaming) = stopConversation convStreaming ∧
    (stopConversation convStreaming).contextCloseCount
        = convStreaming.contextCloseCount + 1 ∧
    (convOnOpenMicFail convStreaming).res = noAudioResources := by
  refine ⟨rfl, ?_, ?_, ?_, ?_⟩
  · exact (workshop_C8_amended convStreaming rfl).1
  · exact (workshop_C8_amended convStreaming rfl).2.2.1
  · exact (workshop_C8_amended convStreaming rfl).2.2.2.1 rfl
  · exact (workshop_C8_amended convStreaming rfl).2.2.2.2.2.1

/-- The mock backend's stored light state `{ power, color:{r,g,b} }`. -/
structure ServerLight where
  power : String
  color : RgbColor
deriving DecidableEq, Repr

/-- The mock backend's in-memory state: the simulated Google token and the
light state. -/
structure ServerState where
  googleToken : Option String
  lightState : ServerLight
deriving DecidableEq, Repr

/-- Server state at startup: no token, light off, color (255,255,255). -/
def serverInit : ServerState :=
  { googleToken := none
    lightState := { power := "off", color := { r := 255, g := 255, b := 255 } } }

/-- `POST /api/lights/power`: 401 when no token is held; 400 when the body's
`power` is neither the string `on` nor `off`; then the simulated call either
fails with 500 (the 5% roll, modelled by `simFail`) leaving the state
unchanged, or stores the requested power and answers 200 SUCCESS. -/
def postLightsPower (s : ServerState) (power : Option String) (simFail : Bool) :
    Nat × ServerState :=
  match s.googleToken with
  | none => (401, s)
  | some _ =>
    match power with
    | none => (400, s)
    | some p =>
      if p ≠ "on" ∧ p ≠ "off" then (400, s)
      else if simFail then (500, s)
      else (200, { s with lightState := { s.lightState with power := p } })

/-- Claim C10: the power endpoint answers 401 whenever no auth token is
held, 400 whenever (authenticated and) the `power` field is neither `on`
nor `off`; in the 401, 400 and simulated-500 cases the stored light state
is unchanged — any non-200 response leaves the state untouched — and the
stored power becomes the requested value exactly on the 200 SUCCESS path. -/
theorem workshop_C10_power_endpoint
    (s : ServerState) (power : Option String) (simFail : Bool) :
    (s.googleToken = none → postLightsPower s power simFail = (401, s)) ∧
    (s.googleToken ≠ none → power ≠ some "on" → power ≠ some "off" →
      postLightsPower s power simFail = (400, s)) ∧
    ((postLightsPower s power simFail).1 ≠ 200 →
      (postLightsPower s power simFail).2 = s) ∧
    (s.googleToken ≠ none → (power = some "on" ∨ power = some "off") →
      simFail = true → postLightsPower s power simFail = (500, s)) ∧
    (∀ p, s.googleToken ≠ none → (p = "on" ∨ p = "off") → power = some p →
      simFail = false →
      postLightsPower s power simFail
        = (200, { s with lightState := { s.lightState with power := p } })) := by
  refine ⟨fun h401 => ?_, fun htk hon hoff => ?_, ?_, fun htk hv hf => ?_,
    fun p htk hv hpw hf => ?_⟩
  · simp [postLightsPower, h401]
  · obtain ⟨tk, htk'⟩ := Option.ne_none_iff_exists'.mp htk
    cases power with
    | none => simp [postLightsPower, htk']
    | some p =>
      have h1 : p ≠ "on" := fun h => hon (by rw [h])
      have h2 : p ≠ "off" := fun h => hoff (by rw [h])
      simp [postLightsPower, htk', h1, h2]
  · cases htok : s.googleToken with
    | none => simp [postLightsPower, htok]
    | some tk =>
      cases power with
      | none => simp [postLightsPower, htok]
      | some p =>
        by_cases hp : p ≠ "on" ∧ p ≠ "off"
        · simp [postLightsPower, htok, hp]
        · cases hf : simFail
          · simp [postLightsPower, htok, hp, hf]
          · simp [postLightsPower, htok, hp, hf]
  · obtain ⟨tk, htk'⟩ := Option.ne_none_iff_exists'.mp htk
    subst hf
    rcases hv with h | h <;> subst h <;> simp [postLightsPower, htk']
  · obtain ⟨tk, htk'⟩ := Option.ne_none_iff_exists'.mp htk
    subst hpw
    subst hf
    rcases hv with h | h <;> subst h <;> simp [postLightsPower, htk']

/-- Witness for C10: with no token the endpoint answers 401 leaving the
state alone; with a token, a bad body gets 400, the simulated failure gets
500, and a valid `on` request flips the stored power on SUCCESS. -/
theorem workshop_C10_witness :
    postLightsPower serverInit (some "on") false = (401, serverInit) ∧
    postLightsPower { serverInit with googleToken := some "tok" }
        (some "banana") false
      = (400, { serverInit with googleToken := some "tok" }) ∧
    postLightsPower { serverInit with googleToken := some "tok" }
        (some "on") true
      = (500, { serverInit with googleToken := some "tok" }) ∧
    postLightsPower { serverInit with googleToken := some "tok" }
        (some "on") false
      = (200, { googleToken := some "tok"
                lightState := { power := "on", color := { r := 255, g := 255, b := 255 } } }) := by
  refine ⟨?_, ?_, ?_, ?_⟩
  · exact (workshop_C10_power_endpoint serverInit (some "on") false).1 rfl
  · exact (workshop_C10_power_endpoint { serverInit with googleToken := some "tok" }
      (some "banana") false).2.1 (by simp) (by simp) (by simp)
  · exact (workshop_C10_power_endpoint { serverInit with googleToken := some "tok" }
      (some "on") true).2.2.2.1 (by simp) (Or.inl rfl) rfl
  · exact (workshop_C10_power_endpoint { serverInit with googleToken := some "tok" }
      (some "on") false).2.2.2.2 "on" (by simp) (Or.inl rfl) rfl rfl
